import Mathlib

/-!
Shallow embedding of `tw2/forms/calendars.py`: the `DateTimeConverter`
validator and the pre-1900 `strftime` workaround (`strftime_before1900`,
`_findall`, `_illegal_s`), together with models of the external
collaborators they call (the platform `time.strftime` primitive, the
`time.strptime` parser, and the validator framework's empty-value wrapper).
-/

set_option autoImplicit false

/-- A Python `datetime` value: year/month/day/hour/minute/second plus an
opaque `tzinfo` token (modelled as an optional string, passed through
unmodified). -/
structure PyDateTime where
  year : Int
  month : Int
  day : Int
  hour : Int
  minute : Int
  second : Int
  tzinfo : Option String
deriving DecidableEq

/-- The platform formatter `time.strftime`: a function from a format string
and the (year, month, day, hour, minute, second) fields to a string.  It is
external to the repository, so the embedding passes it in as a parameter
wherever the code calls it. -/
abbrev PlatformStrftime :=
  String → Int → Int → Int → Int → Int → Int → String

/-- The platform parser `time.strptime` (external): given the input text and
the format, either the parsed time fields or failure (`ValueError`). -/
structure TimeTuple where
  tm_year : Int
  tm_mon : Int
  tm_mday : Int
  tm_hour : Int
  tm_min : Int
  tm_sec : Int
deriving DecidableEq

abbrev Strptime := String → String → Option TimeTuple

/-- Scanner equivalent of the regex `((^|[^%])(%%)*%s)` used by
`_illegal_s`: walking the format string while counting the run of
consecutive `%` characters, an `s` closing an odd run of `%` is exactly a
match of the regex (the final `%` of the run pairs with the `s` as a `%s`
directive and the even remainder of the run is `(%%)*` escaping). -/
def illegalSRun : List Char → Nat → Bool
  | [], _ => false
  | c :: rest, run =>
    if c = 's' ∧ run % 2 = 1 then true
    else illegalSRun rest (if c = '%' then run + 1 else 0)

/-- `_illegal_s.search(fmt)`: does `fmt` contain an unescaped `%s`
directive? -/
def illegal_s (fmt : String) : Bool := illegalSRun fmt.data 0

/-- `_findall(text, substr)`: every offset at which `substr` occurs in
`text`, overlapping occurrences included, in increasing order.  The source
scans with `str.find`, restarting one character past each match, which
collects exactly the offsets `i` (with `i + substr.length ≤ text.length`)
where `substr` is a prefix of `text[i:]`. -/
def findallL (text sub : List Char) : List Nat :=
  (List.range (text.length + 1 - sub.length)).filter
    (fun i => List.isPrefixOf sub (text.drop i))

/-- The two year shifts of `strftime_before1900`: 6 years per non-leap
century crossed (`delta // 100` minus `delta // 400` of them are leap), then
whole 28-year cycles to land near 2000.  Python `//` is floor division,
`Int.fdiv` here. -/
def shifted_year (year : Int) : Int :=
  let delta := 2000 - year
  let off := 6 * (delta.fdiv 100 + delta.fdiv 400)
  let year := year + off
  year + ((2000 - year).fdiv 28) * 28

/-- Python `"%4d" % n`: the decimal rendering of `n`, right-aligned in a
field of width 4, padded with spaces (never zeros; longer renderings are
kept whole). -/
def format4d (n : Int) : String :=
  String.mk (List.replicate (4 - (toString n).length) ' ' ++ (toString n).data)

/-- One splice step of `strftime_before1900`:
`s = s[:site] + syear + s[site+4:]`. -/
def spliceAt (s syear : List Char) (site : Nat) : List Char :=
  s.take site ++ syear ++ s.drop (site + 4)

/-- The splice loop `for site in sites: s = s[:site] + syear + s[site+4:]`. -/
def spliceSites (s1 syear : List Char) (sites : List Nat) : List Char :=
  sites.foldl (fun s site => spliceAt s syear site) s1

/-- `s1` of `strftime_before1900`: the platform formatter applied to the
shifted year and the date's remaining fields. -/
def pass1String (pf : PlatformStrftime) (dt : PyDateTime) (fmt : String) : String :=
  pf fmt (shifted_year dt.year) dt.month dt.day dt.hour dt.minute dt.second

/-- `s2` of `strftime_before1900`: same with the shifted year plus 28. -/
def pass2String (pf : PlatformStrftime) (dt : PyDateTime) (fmt : String) : String :=
  pf fmt (shifted_year dt.year + 28) dt.month dt.day dt.hour dt.minute dt.second

/-- `sites1 = _findall(s1, str(year))`. -/
def sitesPass1 (pf : PlatformStrftime) (dt : PyDateTime) (fmt : String) : List Nat :=
  findallL (pass1String pf dt fmt).data (toString (shifted_year dt.year)).data

/-- `sites2 = _findall(s2, str(year+28))`. -/
def sitesPass2 (pf : PlatformStrftime) (dt : PyDateTime) (fmt : String) : List Nat :=
  findallL (pass2String pf dt fmt).data (toString (shifted_year dt.year + 28)).data

/-- `sites`: the offsets of `sites1` that also occur in `sites2`
(`for site in sites1: if site in sites2: sites.append(site)`). -/
def safeSites (pf : PlatformStrftime) (dt : PyDateTime) (fmt : String) : List Nat :=
  (sitesPass1 pf dt fmt).filter (fun site => (sitesPass2 pf dt fmt).contains site)

/-- The pre-1900 branch of `strftime_before1900`: format with the shifted
year, then splice the true year (rendered by `"%4d"`) at every safe site. -/
def legacyBody (pf : PlatformStrftime) (dt : PyDateTime) (fmt : String) : String :=
  String.mk
    (spliceSites (pass1String pf dt fmt).data (format4d dt.year).data
      (safeSites pf dt fmt))

/-- `strftime_before1900(dt, fmt)`: reject patterns with an unescaped `%s`
(a `TypeError`, modelled as `Except.error`), use the platform formatter
directly when `dt.year > 1900`, and otherwise run the 28-year-cycle
workaround. -/
def strftime_before1900 (pf : PlatformStrftime) (dt : PyDateTime) (fmt : String) :
    Except String String :=
  if illegal_s fmt then
    Except.error "This strftime implementation does not handle %s"
  else if dt.year > 1900 then
    Except.ok (pf fmt dt.year dt.month dt.day dt.hour dt.minute dt.second)
  else
    Except.ok (legacyBody pf dt fmt)

/-- Concrete model of the platform `time.strftime` for the directives the
spec's examples exercise: `%Y` (year, plain decimal), `%m` `%d` `%H` `%M`
`%S` (two-digit zero-padded), `%%` (literal percent); any other character,
and any unrecognised directive, is copied through. -/
def pad2 (n : Int) : String :=
  if 0 ≤ n ∧ n < 10 then "0" ++ toString n else toString n

def timeStrftimeAux (y mo d h mi s : Int) : List Char → List Char
  | [] => []
  | '%' :: c :: rest =>
    (match c with
     | 'Y' => (toString y).data
     | 'm' => (pad2 mo).data
     | 'd' => (pad2 d).data
     | 'H' => (pad2 h).data
     | 'M' => (pad2 mi).data
     | 'S' => (pad2 s).data
     | '%' => ['%']
     | c' => ['%', c']) ++ timeStrftimeAux y mo d h mi s rest
  | c :: rest => c :: timeStrftimeAux y mo d h mi s rest

def timeStrftime : PlatformStrftime :=
  fun fmt y mo d h mi s => String.mk (timeStrftimeAux y mo d h mi s fmt.data)

/-- A Python value as seen by the validator: `None`, a string, a `datetime`,
or some other (truthy) object. -/
inductive PyValue where
  | none : PyValue
  | str : String → PyValue
  | dt : PyDateTime → PyValue
  | other : String → PyValue
deriving DecidableEq

/-- Python truthiness of the values above: `None` and `""` are falsy,
everything else is truthy (`datetime` and generic objects define no
`__bool__`). -/
def PyValue.isTruthy : PyValue → Bool
  | PyValue.none => false
  | PyValue.str s => decide (s ≠ "")
  | PyValue.dt _ => true
  | PyValue.other _ => true

/-- `isinstance(value, (date, datetime))`. -/
def PyValue.isDateInstance : PyValue → Bool
  | PyValue.dt _ => true
  | _ => false

/-- The exceptions the conversion paths can raise: a validation `Invalid`
error with its message, or a `TypeError`. -/
inductive PyError where
  | invalid : String → PyError
  | typeError : String → PyError
deriving DecidableEq

/-- The `DateTimeConverter.messages` dictionary. -/
def DateTimeConverter_messages : String → String
  | "badFormat" => "Invalid datetime format."
  | "empty" => "Please Enter a Date."
  | _ => ""

/-- `DateTimeConverter._to_python(value)`: pass truthy date/datetime values
through unchanged, otherwise run `time.strptime(value, format)` — a
`ValueError` becomes `Invalid(messages['badFormat'])`, and success builds a
`datetime` from the parsed fields with the configured `tzinfo`.
`time.strptime` applied to a non-string raises a `TypeError` (external
behaviour of the platform parser, modelled here directly). -/
def DateTimeConverter_to_python (strp : Strptime) (fmt : String)
    (tz : Option String) (value : PyValue) : Except PyError PyValue :=
  if value.isTruthy ∧ value.isDateInstance then
    Except.ok value
  else
    match value with
    | PyValue.str s =>
      match strp s fmt with
      | Option.none =>
        Except.error (PyError.invalid (DateTimeConverter_messages "badFormat"))
      | Option.some tpl =>
        Except.ok (PyValue.dt
          ⟨tpl.tm_year, tpl.tm_mon, tpl.tm_mday, tpl.tm_hour, tpl.tm_min,
           tpl.tm_sec, tz⟩)
    | _ => Except.error (PyError.typeError "strptime() argument must be str")

/-- Is the value empty in the validator framework's sense (`None` or `""`)? -/
def PyValue.isEmptyValue : PyValue → Bool
  | PyValue.none => true
  | PyValue.str s => decide (s = "")
  | _ => false

/-- Modelled from the spec: the external validator framework's `to_python`
wrapper around `_to_python` (the `formencode.FancyValidator` pipeline is not
part of this repository).  An empty value with `not_empty` set fails with
`Invalid(messages['empty'])`; an allowed empty value becomes the missing
value `None`; anything else is handed to `_to_python`. -/
def FancyValidator_to_python (strp : Strptime) (fmt : String)
    (tz : Option String) (notEmpty : Bool) (value : PyValue) :
    Except PyError PyValue :=
  if value.isEmptyValue then
    if notEmpty then
      Except.error (PyError.invalid (DateTimeConverter_messages "empty"))
    else
      Except.ok PyValue.none
  else
    DateTimeConverter_to_python strp fmt tz value

/-- `DateTimeConverter._from_python(value)`: falsy values yield `None`;
`datetime` values are formatted — through `strftime_before1900` when
`year <= 1900`, directly through the platform formatter otherwise (a
`TypeError` from the legacy formatter propagates); any other value is
returned unchanged. -/
def DateTimeConverter_from_python (pf : PlatformStrftime) (fmt : String)
    (value : PyValue) : Except String PyValue :=
  if ¬ value.isTruthy then
    Except.ok PyValue.none
  else
    match value with
    | PyValue.dt d =>
      if d.year ≤ 1900 then
        (strftime_before1900 pf d fmt).map PyValue.str
      else
        Except.ok (PyValue.str (pf fmt d.year d.month d.day d.hour d.minute d.second))
    | v => Except.ok v

/-- A platform parser that rejects every input (used to instantiate
universally quantified theorems at concrete inputs). -/
def strptimeReject : Strptime := fun _ _ => Option.none

/-- A platform parser that accepts every input with a fixed field tuple. -/
def strptimeAccept : Strptime := fun _ _ =>
  Option.some ⟨1999, 12, 31, 23, 59, 58⟩

/-- The length of the run of consecutive `%` characters a left-to-right scan
is inside after reading `l`, starting from a run of length `r`. -/
def runEnd (r : Nat) : List Char → Nat
  | [] => r
  | c :: rest => runEnd (if c = '%' then r + 1 else 0) rest

/-- The run of consecutive `%` characters at the end of `l`. -/
def trailingPercents (l : List Char) : Nat :=
  (l.reverse.takeWhile (fun c => decide (c = '%'))).length

/-- The claim's reading of an unescaped `%s`: a `%s` directive whose
preceding run of `%` characters has even length (so the `%` of `%s` is not
itself escaped). -/
def hasUnescapedS (l : List Char) : Prop :=
  ∃ pre rest, l = pre ++ '%' :: 's' :: rest ∧ trailingPercents pre % 2 = 0

lemma illegalSRun_iff (l : List Char) : ∀ r : Nat,
    illegalSRun l r = true ↔
      ∃ pre rest, l = pre ++ 's' :: rest ∧ runEnd r pre % 2 = 1 := by
  induction l with
  | nil =>
    intro r
    simp only [illegalSRun, Bool.false_eq_true, false_iff]
    rintro ⟨pre, rest, h, -⟩
    exact absurd h.symm (by simp)
  | cons c t ih =>
    intro r
    simp only [illegalSRun]
    by_cases hc : c = 's' ∧ r % 2 = 1
    · rw [if_pos hc]
      simp only [true_iff]
      exact ⟨[], t, by simp [hc.1], by simpa [runEnd] using hc.2⟩
    · rw [if_neg hc, ih]
      constructor
      · rintro ⟨pre, rest, ht, hodd⟩
        exact ⟨c :: pre, rest, by simp [ht], by simpa [runEnd] using hodd⟩
      · rintro ⟨pre, rest, heq, hodd⟩
        cases pre with
        | nil =>
          simp only [List.nil_append, List.cons.injEq] at heq
          exact absurd ⟨heq.1, by simpa [runEnd] using hodd⟩ hc
        | cons c' pre' =>
          simp only [List.cons_append, List.cons.injEq] at heq
          obtain ⟨hcc, ht⟩ := heq
          subst hcc
          exact ⟨pre', rest, ht, by simpa [runEnd] using hodd⟩

lemma runEnd_append (l : List Char) (c : Char) : ∀ r : Nat,
    runEnd r (l ++ [c]) = if c = '%' then runEnd r l + 1 else 0 := by
  induction l with
  | nil => intro r; simp [runEnd]
  | cons d t ih => intro r; simp [runEnd, ih]

lemma runEnd_eq_trailing (l : List Char) : runEnd 0 l = trailingPercents l := by
  induction l using List.reverseRecOn with
  | nil => simp [runEnd, trailingPercents]
  | append_singleton t c ih =>
    rw [runEnd_append]
    unfold trailingPercents
    rw [List.reverse_append, List.reverse_singleton, List.singleton_append]
    by_cases hc : c = '%'
    · rw [if_pos hc, List.takeWhile_cons_of_pos (by simp [hc])]
      simp only [List.length_cons]
      rw [ih]
      rfl
    · rw [if_neg hc, List.takeWhile_cons_of_neg (by simp [hc])]
      simp

lemma illegal_s_iff (fmt : String) :
    illegal_s fmt = true ↔ hasUnescapedS fmt.data := by
  unfold illegal_s hasUnescapedS
  rw [illegalSRun_iff]
  constructor
  · rintro ⟨pre, rest, heq, hodd⟩
    rcases List.eq_nil_or_concat pre with hnil | ⟨pre', c, hpre⟩
    · subst hnil
      simp [runEnd] at hodd
    · subst hpre
      rw [List.concat_eq_append] at heq hodd
      rw [runEnd_append] at hodd
      by_cases hc : c = '%'
      · rw [if_pos hc] at hodd
        subst hc
        refine ⟨pre', rest, ?_, ?_⟩
        · rw [heq]
          simp
        · rw [← runEnd_eq_trailing]
          omega
      · rw [if_neg hc] at hodd
        simp at hodd
  · rintro ⟨pre, rest, heq, heven⟩
    refine ⟨pre ++ ['%'], rest, ?_, ?_⟩
    · rw [heq]
      simp
    · rw [runEnd_append, if_pos rfl, runEnd_eq_trailing]
      omega

/-- C1: formatting year=1850, month=7, day=4 with pattern `"%Y-%m-%d"`
through `strftime_before1900` yields exactly `"1850-07-04"` — the true year
1850 is spliced back in, not the shifted working year 1996. -/
theorem strftime_before1900_renders_1850 :
    strftime_before1900 timeStrftime ⟨1850, 7, 4, 0, 0, 0, Option.none⟩ "%Y-%m-%d" =
      Except.ok "1850-07-04" := rfl

/-- C2: for every year ≤ 1900 the working year is computed exactly as
`delta = 2000 - year`, `off = 6 * (delta // 100 + delta // 400)`,
`shiftedYear = year + off`, then
`shiftedYear + ((2000 - shiftedYear) // 28) * 28` (floor division
throughout), and this final shifted year is the year handed to the platform
formatter in the first formatting pass. -/
theorem shifted_year_spec (year : Int) (h : year ≤ 1900) :
    shifted_year year =
      year + 6 * ((2000 - year).fdiv 100 + (2000 - year).fdiv 400) +
        ((2000 - (year + 6 * ((2000 - year).fdiv 100 + (2000 - year).fdiv 400))).fdiv 28) *
          28 ∧
    ∀ (pf : PlatformStrftime) (dt : PyDateTime) (fmt : String),
      dt.year = year → illegal_s fmt = false →
      strftime_before1900 pf dt fmt = Except.ok (legacyBody pf dt fmt) ∧
      pass1String pf dt fmt =
        pf fmt (shifted_year year) dt.month dt.day dt.hour dt.minute dt.second := by
  refine ⟨rfl, ?_⟩
  intro pf dt fmt hy hleg
  subst hy
  refine ⟨?_, rfl⟩
  unfold strftime_before1900
  rw [if_neg (by simp [hleg]), if_neg (by omega)]

/-- C2 witness: the computation at year 1850 with pattern `"%Y-%m-%d"`. -/
theorem shifted_year_spec_witness :
    shifted_year 1850 = 1996 ∧
    strftime_before1900 timeStrftime ⟨1850, 7, 4, 0, 0, 0, Option.none⟩ "%Y-%m-%d" =
      Except.ok (legacyBody timeStrftime ⟨1850, 7, 4, 0, 0, 0, Option.none⟩ "%Y-%m-%d") ∧
    pass1String timeStrftime ⟨1850, 7, 4, 0, 0, 0, Option.none⟩ "%Y-%m-%d" =
      timeStrftime "%Y-%m-%d" (shifted_year 1850) 7 4 0 0 0 := by
  have h := (shifted_year_spec 1850 (by decide)).2 timeStrftime
    ⟨1850, 7, 4, 0, 0, 0, Option.none⟩ "%Y-%m-%d" rfl (by decide)
  exact ⟨by decide, h.1, h.2⟩

/-- C10: for every year ≤ 1900 (negative years included) the working year
lies in the interval (1972, 2000], its 28-year companion lies in
(2000, 2028], and hence both exceed 1900, so the platform formatter is never
handed a year it cannot represent. -/
theorem shifted_year_range (year : Int) (h : year ≤ 1900) :
    1972 < shifted_year year ∧ shifted_year year ≤ 2000 ∧
    2000 < shifted_year year + 28 ∧ shifted_year year + 28 ≤ 2028 ∧
    1900 < shifted_year year ∧ 1900 < shifted_year year + 28 := by
  have hdef : shifted_year year =
      year + 6 * ((2000 - year).fdiv 100 + (2000 - year).fdiv 400) +
        ((2000 - (year + 6 * ((2000 - year).fdiv 100 + (2000 - year).fdiv 400))).fdiv 28) *
          28 := rfl
  set z := year + 6 * ((2000 - year).fdiv 100 + (2000 - year).fdiv 400) with hz
  rw [Int.fdiv_eq_ediv _ (by norm_num : (0 : Int) ≤ 28)] at hdef
  omega

/-- C10 witness: the bounds hold at year 1666. -/
theorem shifted_year_range_witness :
    (1666 : Int) ≤ 1900 ∧
    (1972 < shifted_year 1666 ∧ shifted_year 1666 ≤ 2000 ∧
     2000 < shifted_year 1666 + 28 ∧ shifted_year 1666 + 28 ≤ 2028 ∧
     1900 < shifted_year 1666 ∧ 1900 < shifted_year 1666 + 28) :=
  ⟨by decide, shifted_year_range 1666 (by decide)⟩

/-- C6: a pattern contains an unescaped `%s` (a `%s` whose preceding run of
`%` characters has even length) exactly when `_illegal_s` flags it; a
flagged pattern makes `strftime_before1900` raise the `TypeError` for every
input date, before any formatting happens; an unflagged pattern always
produces an output string. -/
theorem illegal_pattern_spec (fmt : String) :
    (illegal_s fmt = true ↔ hasUnescapedS fmt.data) ∧
    (∀ (pf : PlatformStrftime) (dt : PyDateTime),
      illegal_s fmt = true →
      strftime_before1900 pf dt fmt =
        Except.error "This strftime implementation does not handle %s") ∧
    (∀ (pf : PlatformStrftime) (dt : PyDateTime),
      illegal_s fmt = false →
      ∃ out : String, strftime_before1900 pf dt fmt = Except.ok out) := by
  refine ⟨illegal_s_iff fmt, ?_, ?_⟩
  · intro pf dt h
    unfold strftime_before1900
    rw [if_pos h]
  · intro pf dt h
    unfold strftime_before1900
    rw [if_neg (by simp [h])]
    by_cases hy : dt.year > 1900
    · rw [if_pos hy]
      exact ⟨_, rfl⟩
    · rw [if_neg hy]
      exact ⟨_, rfl⟩

/-- C6 witness: `"%s"` is flagged and raises even for a year-2000 date;
`"%Y-%m-%d"` is not flagged and formats. -/
theorem illegal_pattern_spec_witness :
    (illegal_s "%s" = true ↔ hasUnescapedS ("%s" : String).data) ∧
    strftime_before1900 timeStrftime ⟨2000, 1, 1, 0, 0, 0, Option.none⟩ "%s" =
      Except.error "This strftime implementation does not handle %s" ∧
    ∃ out : String,
      strftime_before1900 timeStrftime ⟨2000, 1, 1, 0, 0, 0, Option.none⟩ "%Y-%m-%d" =
        Except.ok out :=
  ⟨(illegal_pattern_spec "%s").1,
   (illegal_pattern_spec "%s").2.1 timeStrftime _ (by decide),
   (illegal_pattern_spec "%Y-%m-%d").2.2 timeStrftime _ (by decide)⟩

/-- C4: `_findall` records exactly the offsets (overlapping occurrences
included) at which the substring occurs; on the pre-1900 path the splice is
applied over the safe sites, and an offset is safe exactly when it was
recorded for both formatted strings — offsets in only one of the two sets
are not spliced. -/
theorem findall_intersection_spec :
    (∀ (text sub : List Char) (i : Nat), sub ≠ [] →
      (i ∈ findallL text sub ↔ List.isPrefixOf sub (text.drop i) = true)) ∧
    ∀ (pf : PlatformStrftime) (dt : PyDateTime) (fmt : String),
      dt.year ≤ 1900 → illegal_s fmt = false →
      strftime_before1900 pf dt fmt =
        Except.ok (String.mk (spliceSites (pass1String pf dt fmt).data
          (format4d dt.year).data (safeSites pf dt fmt))) ∧
      ∀ site : Nat,
        site ∈ safeSites pf dt fmt ↔
          site ∈ sitesPass1 pf dt fmt ∧ site ∈ sitesPass2 pf dt fmt := by
  constructor
  · intro text sub i hsub
    unfold findallL
    rw [List.mem_filter, List.mem_range]
    constructor
    · rintro ⟨-, hp⟩
      exact hp
    · intro hp
      refine ⟨?_, hp⟩
      have hpre : sub <+: text.drop i := List.isPrefixOf_iff_prefix.mp hp
      have hlen := hpre.length_le
      rw [List.length_drop] at hlen
      have hone : 1 ≤ sub.length := by
        cases sub with
        | nil => exact absurd rfl hsub
        | cons a t => simp
      omega
  · intro pf dt fmt hy hleg
    constructor
    · unfold strftime_before1900
      rw [if_neg (by simp [hleg]), if_neg (by omega)]
      rfl
    · intro site
      unfold safeSites
      rw [List.mem_filter]
      simp [List.contains]

/-- C4 witness: at the 1850 example the set characterizations and the
splice-over-intersection shape evaluate concretely. -/
theorem findall_intersection_spec_witness :
    ((0 : Nat) ∈ findallL ("1996-07-04" : String).data ("1996" : String).data ↔
      List.isPrefixOf ("1996" : String).data (("1996-07-04" : String).data.drop 0) = true) ∧
    strftime_before1900 timeStrftime ⟨1850, 7, 4, 0, 0, 0, Option.none⟩ "%Y-%m-%d" =
      Except.ok (String.mk
        (spliceSites (pass1String timeStrftime ⟨1850, 7, 4, 0, 0, 0, Option.none⟩ "%Y-%m-%d").data
          (format4d 1850).data
          (safeSites timeStrftime ⟨1850, 7, 4, 0, 0, 0, Option.none⟩ "%Y-%m-%d"))) ∧
    ((0 : Nat) ∈ safeSites timeStrftime ⟨1850, 7, 4, 0, 0, 0, Option.none⟩ "%Y-%m-%d" ↔
      (0 : Nat) ∈ sitesPass1 timeStrftime ⟨1850, 7, 4, 0, 0, 0, Option.none⟩ "%Y-%m-%d" ∧
      (0 : Nat) ∈ sitesPass2 timeStrftime ⟨1850, 7, 4, 0, 0, 0, Option.none⟩ "%Y-%m-%d") := by
  have h := findall_intersection_spec.2 timeStrftime ⟨1850, 7, 4, 0, 0, 0, Option.none⟩
    "%Y-%m-%d" (by decide) (by decide)
  exact ⟨findall_intersection_spec.1 _ _ 0 (by decide), h.1, h.2 0⟩

/-- C3 counterexample: at year 850 the splice inserts the space-padded
rendering `" 850"`, not a zero-padded one — the formatted result is
`" 850-07-04"`, not `"0850-07-04"`. -/
theorem splice_not_zero_padded :
    strftime_before1900 timeStrftime ⟨850, 7, 4, 0, 0, 0, Option.none⟩ "%Y-%m-%d" =
      Except.ok " 850-07-04" ∧
    (" 850-07-04" : String) ≠ "0850-07-04" :=
  ⟨rfl, by decide⟩

/-- C3 amended: at every safe offset the true year is spliced in rendered by
Python's `"%4d"` — right-aligned, space-padded to a minimum width of 4 (so
its length is `max 4` the plain decimal length: exactly 4 characters only
when the plain decimal rendering has at most 4) — and each splice step
removes exactly 4 characters of the formatted string before inserting. -/
theorem splice_format_spec (pf : PlatformStrftime) (dt : PyDateTime) (fmt : String)
    (hy : dt.year ≤ 1900) (hleg : illegal_s fmt = false) :
    strftime_before1900 pf dt fmt =
      Except.ok (String.mk (spliceSites (pass1String pf dt fmt).data
        (format4d dt.year).data (safeSites pf dt fmt))) ∧
    (format4d dt.year).data =
      List.replicate (4 - (toString dt.year).length) ' ' ++ (toString dt.year).data ∧
    (format4d dt.year).length = max 4 (toString dt.year).length ∧
    ∀ (s syear : List Char) (site : Nat), site + 4 ≤ s.length →
      (spliceAt s syear site).length = s.length - 4 + syear.length := by
  refine ⟨?_, rfl, ?_, ?_⟩
  · unfold strftime_before1900
    rw [if_neg (by simp [hleg]), if_neg (by omega)]
    rfl
  · show (String.mk (List.replicate (4 - (toString dt.year).length) ' ' ++
      (toString dt.year).data)).length = max 4 (toString dt.year).length
    simp only [String.length_mk, List.length_append, List.length_replicate]
    have hlen : (toString dt.year).length = (toString dt.year).data.length := rfl
    rw [hlen]
    omega
  · intro s syear site hsite
    unfold spliceAt
    simp only [List.length_append, List.length_take, List.length_drop]
    omega

/-- C3 amended witness: the year-850 example, with the splice-step length
checked on its concrete first pass. -/
theorem splice_format_spec_witness :
    strftime_before1900 timeStrftime ⟨850, 7, 4, 0, 0, 0, Option.none⟩ "%Y-%m-%d" =
      Except.ok (String.mk
        (spliceSites (pass1String timeStrftime ⟨850, 7, 4, 0, 0, 0, Option.none⟩ "%Y-%m-%d").data
          (format4d 850).data
          (safeSites timeStrftime ⟨850, 7, 4, 0, 0, 0, Option.none⟩ "%Y-%m-%d"))) ∧
    (format4d 850).data =
      List.replicate (4 - (toString (850 : Int)).length) ' ' ++ (toString (850 : Int)).data ∧
    (format4d 850).length = max 4 (toString (850 : Int)).length ∧
    (spliceAt ("1992-07-04" : String).data (" 850" : String).data 0).length =
      ("1992-07-04" : String).data.length - 4 + (" 850" : String).data.length := by
  have h := splice_format_spec timeStrftime ⟨850, 7, 4, 0, 0, 0, Option.none⟩ "%Y-%m-%d"
    (by decide) (by decide)
  exact ⟨h.1, h.2.1, h.2.2.1, h.2.2.2 _ _ 0 (by decide)⟩

/-- C5: `_from_python` delegates a datetime value to `strftime_before1900`
exactly when its year is ≤ 1900 and formats directly through the platform
formatter when the year exceeds 1900; and `strftime_before1900` itself,
given a year > 1900 (and a pattern passing the `%s` check), returns exactly
the platform formatter's output. -/
theorem from_python_dispatch (pf : PlatformStrftime) (fmt : String) (d : PyDateTime) :
    (d.year ≤ 1900 →
      DateTimeConverter_from_python pf fmt (PyValue.dt d) =
        (strftime_before1900 pf d fmt).map PyValue.str) ∧
    (1900 < d.year →
      DateTimeConverter_from_python pf fmt (PyValue.dt d) =
        Except.ok (PyValue.str (pf fmt d.year d.month d.day d.hour d.minute d.second)) ∧
      (illegal_s fmt = false →
        strftime_before1900 pf d fmt =
          Except.ok (pf fmt d.year d.month d.day d.hour d.minute d.second))) := by
  constructor
  · intro hy
    unfold DateTimeConverter_from_python
    rw [if_neg (by simp [PyValue.isTruthy])]
    simp only
    rw [if_pos hy]
  · intro hy
    constructor
    · unfold DateTimeConverter_from_python
      rw [if_neg (by simp [PyValue.isTruthy])]
      simp only
      rw [if_neg (by omega)]
    · intro hleg
      unfold strftime_before1900
      rw [if_neg (by simp [hleg]), if_pos (by omega)]

/-- C5 witness: year 1900 takes the legacy path, year 1901 the direct
platform path, which the legacy formatter reproduces. -/
theorem from_python_dispatch_witness :
    DateTimeConverter_from_python timeStrftime "%Y/%m/%d %H:%M"
        (PyValue.dt ⟨1900, 1, 1, 0, 0, 0, Option.none⟩) =
      (strftime_before1900 timeStrftime ⟨1900, 1, 1, 0, 0, 0, Option.none⟩
        "%Y/%m/%d %H:%M").map PyValue.str ∧
    DateTimeConverter_from_python timeStrftime "%Y/%m/%d %H:%M"
        (PyValue.dt ⟨1901, 1, 1, 0, 0, 0, Option.none⟩) =
      Except.ok (PyValue.str (timeStrftime "%Y/%m/%d %H:%M" 1901 1 1 0 0 0)) ∧
    strftime_before1900 timeStrftime ⟨1901, 1, 1, 0, 0, 0, Option.none⟩ "%Y/%m/%d %H:%M" =
      Except.ok (timeStrftime "%Y/%m/%d %H:%M" 1901 1 1 0 0 0) := by
  have h1 := (from_python_dispatch timeStrftime "%Y/%m/%d %H:%M"
    ⟨1900, 1, 1, 0, 0, 0, Option.none⟩).1 (by decide)
  have h2 := (from_python_dispatch timeStrftime "%Y/%m/%d %H:%M"
    ⟨1901, 1, 1, 0, 0, 0, Option.none⟩).2 (by decide)
  exact ⟨h1, h2.1, h2.2 (by decide)⟩

/-- C7 counterexample: `_from_python` applied to `None` returns `None`
(the absent value), which is not the empty string the claim promises. -/
theorem from_python_none_is_none :
    DateTimeConverter_from_python timeStrftime "%Y/%m/%d %H:%M" PyValue.none =
      Except.ok PyValue.none ∧
    PyValue.none ≠ PyValue.str "" :=
  ⟨rfl, by decide⟩

/-- C7 amended: parsing the empty string with `not_empty` set fails with the
`Empty` error kind and its message (not `BadFormat`), while `_from_python`
of any falsy value — `None` or the empty string — returns `None` (the
absent value, not the empty string), without raising. -/
theorem empty_handling_spec (strp : Strptime) (pf : PlatformStrftime)
    (fmt : String) (tz : Option String) :
    FancyValidator_to_python strp fmt tz true (PyValue.str "") =
      Except.error (PyError.invalid "Please Enter a Date.") ∧
    ∀ v : PyValue, v.isTruthy = false →
      DateTimeConverter_from_python pf fmt v = Except.ok PyValue.none := by
  refine ⟨rfl, ?_⟩
  intro v hv
  unfold DateTimeConverter_from_python
  rw [if_pos (by simp [hv])]

/-- C7 amended witness: the empty string fails `Empty`; `None` renders to
`None`. -/
theorem empty_handling_spec_witness :
    FancyValidator_to_python strptimeReject "%Y/%m/%d %H:%M" Option.none true
        (PyValue.str "") =
      Except.error (PyError.invalid "Please Enter a Date.") ∧
    DateTimeConverter_from_python timeStrftime "%Y/%m/%d %H:%M" PyValue.none =
      Except.ok PyValue.none := by
  have h := empty_handling_spec strptimeReject timeStrftime "%Y/%m/%d %H:%M" Option.none
  exact ⟨h.1, h.2 PyValue.none (by decide)⟩

/-- C8: `_to_python` on a string that the platform parser rejects fails with
`BadFormat` carrying the message "Invalid datetime format.", and on a parsed
string returns a datetime built from the parsed fields with the configured
`tzinfo` attached. -/
theorem to_python_parse_spec (strp : Strptime) (fmt : String) (tz : Option String)
    (s : String) (hne : s ≠ "") :
    (strp s fmt = Option.none →
      DateTimeConverter_to_python strp fmt tz (PyValue.str s) =
        Except.error (PyError.invalid "Invalid datetime format.")) ∧
    ∀ tpl : TimeTuple, strp s fmt = Option.some tpl →
      DateTimeConverter_to_python strp fmt tz (PyValue.str s) =
        Except.ok (PyValue.dt ⟨tpl.tm_year, tpl.tm_mon, tpl.tm_mday, tpl.tm_hour,
          tpl.tm_min, tpl.tm_sec, tz⟩) := by
  have hcond : ¬((PyValue.str s).isTruthy = true ∧ (PyValue.str s).isDateInstance = true) := by
    simp [PyValue.isDateInstance]
  constructor
  · intro hp
    unfold DateTimeConverter_to_python
    rw [if_neg hcond]
    simp only [hp]
    rfl
  · intro tpl hp
    unfold DateTimeConverter_to_python
    rw [if_neg hcond]
    simp only [hp]

/-- C8 witness: `"not-a-date"` against `"%Y/%m/%d"` fails `BadFormat`; an
accepting parser yields the datetime with the parsed fields. -/
theorem to_python_parse_spec_witness :
    DateTimeConverter_to_python strptimeReject "%Y/%m/%d" Option.none
        (PyValue.str "not-a-date") =
      Except.error (PyError.invalid "Invalid datetime format.") ∧
    DateTimeConverter_to_python strptimeAccept "%Y/%m/%d" Option.none
        (PyValue.str "1999/12/31") =
      Except.ok (PyValue.dt ⟨1999, 12, 31, 23, 59, 58, Option.none⟩) := by
  refine ⟨(to_python_parse_spec strptimeReject "%Y/%m/%d" Option.none "not-a-date"
    (by decide)).1 rfl, ?_⟩
  exact (to_python_parse_spec strptimeAccept "%Y/%m/%d" Option.none "1999/12/31"
    (by decide)).2 ⟨1999, 12, 31, 23, 59, 58⟩ rfl

/-- C9: `_to_python` returns a value that is already a datetime unchanged,
and `_from_python` returns any truthy value that is not a datetime
unchanged. -/
theorem pass_through_spec (strp : Strptime) (fmt : String) (tz : Option String)
    (pf : PlatformStrftime) :
    (∀ d : PyDateTime,
      DateTimeConverter_to_python strp fmt tz (PyValue.dt d) =
        Except.ok (PyValue.dt d)) ∧
    ∀ v : PyValue, v.isTruthy = true → v.isDateInstance = false →
      DateTimeConverter_from_python pf fmt v = Except.ok v := by
  constructor
  · intro d
    unfold DateTimeConverter_to_python
    rw [if_pos ⟨rfl, rfl⟩]
  · intro v htr hnd
    cases v with
    | none => simp [PyValue.isTruthy] at htr
    | str s =>
      unfold DateTimeConverter_from_python
      rw [if_neg (by simp [htr])]
    | dt d => simp [PyValue.isDateInstance] at hnd
    | other t =>
      unfold DateTimeConverter_from_python
      rw [if_neg (by simp [htr])]

/-- C9 witness: a concrete datetime passes through parsing unchanged; a
non-date truthy value passes through rendering unchanged. -/
theorem pass_through_spec_witness :
    DateTimeConverter_to_python strptimeReject "%Y/%m/%d" Option.none
        (PyValue.dt ⟨2020, 5, 6, 7, 8, 9, Option.none⟩) =
      Except.ok (PyValue.dt ⟨2020, 5, 6, 7, 8, 9, Option.none⟩) ∧
    DateTimeConverter_from_python timeStrftime "%Y/%m/%d"
        (PyValue.other "already rendered") =
      Except.ok (PyValue.other "already rendered") := by
  have h := pass_through_spec strptimeReject "%Y/%m/%d" Option.none timeStrftime
  exact ⟨h.1 ⟨2020, 5, 6, 7, 8, 9, Option.none⟩,
    h.2 (PyValue.other "already rendered") rfl rfl⟩
